import Mathlib

/- Formal verification of the computational core of the clintrials EffTox
dose-finding design against its specification.

The link functions are embedded from `clintrials/common.py` (the only module
whose source is part of the snapshot).  The EffTox dose-response model, the
dose selector, the utility contour and the DTP enumerator live in
`clintrials/dosefinding/efftox.py` and `clintrials/dosefinding/efficacytoxicity.py`,
which are absent from the snapshot (only their callers, two notebooks, are
present); those components are modelled from the specification, as marked on
each definition. -/

namespace Clintrials

/-! ## Link functions, embedded from clintrials.common -/

/-- Embedded from `clintrials.common.inverse_logit`: `1 / (1 + e^(-x))`. -/
noncomputable def inverse_logit (x : ℝ) : ℝ := 1 / (1 + Real.exp (-x))

/-- Embedded from `clintrials.common.logistic`:
`1 / (1 + e^(-a0 - e^beta * x))`. -/
noncomputable def logistic (x a0 beta : ℝ) : ℝ :=
  1 / (1 + Real.exp (-a0 - Real.exp beta * x))

/-- Embedded from `clintrials.common.inverse_logistic`:
`(log(x/(1-x)) - a0) / e^beta`. -/
noncomputable def inverse_logistic (x a0 beta : ℝ) : ℝ :=
  (Real.log (x / (1 - x)) - a0) / Real.exp beta

/-! ## EffTox dose-response model, modelled from the specification -/

/-- Modelled from the spec: `_pi_T` of `clintrials.dosefinding.efftox` (module
absent from the snapshot; only callers recorded in the nuts-and-bolts notebook
are present). Marginal toxicity probability via a logit-linear model of the
scaled dose with a per-draw intercept/slope pair. -/
noncomputable def _pi_T (x alpha0 alpha1 : ℝ) : ℝ :=
  inverse_logit (alpha0 + alpha1 * x)

/-- Modelled from the spec: `_pi_E` of `clintrials.dosefinding.efftox` (module
absent from the snapshot). Marginal efficacy probability via a logit-linear
model with an additional quadratic dose term. -/
noncomputable def _pi_E (x beta0 beta1 beta2 : ℝ) : ℝ :=
  inverse_logit (beta0 + beta1 * x + beta2 * x ^ 2)

/-- Modelled from the spec: `_pi_ab` of `clintrials.dosefinding.efftox` (module
absent from the snapshot). Joint probability of a (toxicity, efficacy) outcome
pair: the product of the two marginal terms plus a symmetric association
correction scaled by the association parameter `psi` (the Thall & Cook 2004
form, whose correction factor `(e^psi - 1)/(e^psi + 1)` vanishes at `psi = 0`). -/
noncomputable def _pi_ab (x : ℝ) (tox eff : Bool) (a0 a1 b0 b1 b2 psi : ℝ) : ℝ :=
  (if tox then _pi_T x a0 a1 else 1 - _pi_T x a0 a1) *
      (if eff then _pi_E x b0 b1 b2 else 1 - _pi_E x b0 b1 b2) +
    (if tox = eff then 1 else -1) * _pi_T x a0 a1 * (1 - _pi_T x a0 a1) *
      _pi_E x b0 b1 b2 * (1 - _pi_E x b0 b1 b2) *
      ((Real.exp psi - 1) / (Real.exp psi + 1))

/-- Modelled from the spec: `_L_n` of `clintrials.dosefinding.efftox` (module
absent from the snapshot). Compound likelihood over a cohort: the product,
across all recorded `(scaled dose, toxicity, efficacy)` cases, of each
outcome's joint probability. -/
noncomputable def _L_n (cases : List (ℝ × Bool × Bool)) (a0 a1 b0 b1 b2 psi : ℝ) : ℝ :=
  (cases.map (fun c => _pi_ab c.1 c.2.1 c.2.2 a0 a1 b0 b1 b2 psi)).prod

/-- Modelled from the spec: `scale_doses` of `clintrials.dosefinding.efftox`
(module absent from the snapshot). The standardized ("scaled") dose values:
the centered transform `log d - mean(log doses)`, which reproduces the array
recorded in the nuts-and-bolts notebook for the Matchpoint doses. -/
noncomputable def scale_doses (real_doses : List ℝ) : List ℝ :=
  real_doses.map (fun d => Real.log d - (real_doses.map Real.log).sum / real_doses.length)

/-! ## Utility contour, modelled from the specification -/

/-- Modelled from the spec: the `LpNormCurve` utility of
`clintrials.dosefinding.efftox` (module absent from the snapshot).  The
Lp-norm-family indifference contour through the hinge points
`(eff1, 0)`, `(1, tox2)` and a third point that determines the exponent `p`:
`u(eff, tox) = 1 - (((1-eff)/(1-eff1))^p + (tox/tox2)^p)^(1/p)`. -/
noncomputable def lp_utility (p eff1 tox2 : ℝ) (eff tox : ℝ) : ℝ :=
  1 - (((1 - eff) / (1 - eff1)) ^ p + (tox / tox2) ^ p) ^ (1 / p)

/-- Degree-9 Taylor polynomial of the exponential function, used only to
certify rational bounds on `Real.exp` at concrete arguments. -/
noncomputable def expP (x : ℝ) : ℝ :=
  1 + x + x ^ 2 / 2 + x ^ 3 / 6 + x ^ 4 / 24 + x ^ 5 / 120 + x ^ 6 / 720 +
    x ^ 7 / 5040 + x ^ 8 / 40320 + x ^ 9 / 362880

/-! ## DTP enumerator, modelled from the specification -/

/-- Per-patient outcome alphabet of the DTP enumerator: no-event,
efficacy-only, toxicity-only, both. -/
inductive Outcome : Type
  | N
  | E
  | T
  | B
deriving DecidableEq

/-- Position of an outcome in the enumeration order of the alphabet. -/
def Outcome.idx : Outcome → Nat
  | .N => 0
  | .E => 1
  | .T => 2
  | .B => 3

instance : LE Outcome := ⟨fun a b => a.idx ≤ b.idx⟩

instance (a b : Outcome) : Decidable (a ≤ b) :=
  inferInstanceAs (Decidable (a.idx ≤ b.idx))

/-- Helper for `cwr`: combinations with replacement over an alphabet whose
first symbol is `a` and whose remaining suffix enumerations are `rest`. -/
def cwrCons {α : Type} (a : α) (rest : Nat → List (List α)) : Nat → List (List α)
  | 0 => [[]]
  | k + 1 => ((cwrCons a rest k).map (fun s => a :: s)) ++ rest (k + 1)

/-- Combinations with replacement: all canonical (order of first occurrence
non-decreasing) selections of `k` symbols from the list `l`, mirroring
`itertools.combinations_with_replacement` used by the DTP enumerator. -/
def cwr {α : Type} : List α → Nat → List (List α)
  | [], 0 => [[]]
  | [], _ + 1 => []
  | a :: as, k => cwrCons a (cwr as) k

/-- Modelled from the spec: the canonical outcome labels the DTP enumerator
produces for one cohort of size `k` — canonical non-decreasing multisets of
per-patient outcomes over the four-symbol alphabet `{N, E, T, B}`. -/
def dtp_labels (k : Nat) : List (List Outcome) :=
  cwr [Outcome.N, Outcome.E, Outcome.T, Outcome.B] k

/-! ## Dose selector, modelled from the specification -/

/-- Per-dose posterior summary consumed by the dose selector: the posterior
probability that the dose's toxicity probability exceeds the toxicity cutoff,
the posterior probability that its efficacy probability is below the efficacy
cutoff, and its posterior mean utility. -/
structure DoseInfo where
  probToxExceedsCutoff : ℚ
  probEffBelowCutoff : ℚ
  meanUtility : ℚ
deriving DecidableEq

/-- Modelled from the spec: dose admissibility. A dose is excluded if the
posterior probability that its toxicity probability exceeds the toxicity
cutoff is itself greater than `toxCertainty`, or if the posterior probability
that its efficacy probability is below the efficacy cutoff exceeds
`effCertainty`. -/
def admissible (toxCertainty effCertainty : ℚ) (d : DoseInfo) : Bool :=
  decide (d.probToxExceedsCutoff ≤ toxCertainty) &&
    decide (d.probEffBelowCutoff ≤ effCertainty)

/-- Pick the entry with maximal mean utility from a list of candidate
(0-based index, summary) pairs; `none` when there are no candidates. -/
def pickBest : List (Nat × DoseInfo) → Option (Nat × DoseInfo)
  | [] => none
  | p :: rest =>
    match pickBest rest with
    | none => some p
    | some q => if q.2.meanUtility < p.2.meanUtility then some p else some q

/-- Modelled from the spec: the dose selector. Doses are 1-based indices into
`infos`; a dose is a candidate when it is admissible and does not skip more
than one level above the highest dose already tried (`maxTried`, 1-based);
among candidates the recommended dose maximizes posterior mean utility; when
no dose is a candidate the sentinel `none` ("no dose") is returned. -/
def select (toxCertainty effCertainty : ℚ) (maxTried : Nat)
    (infos : List DoseInfo) : Option Nat :=
  let cands := infos.enum.filter (fun p =>
    decide (p.1 + 1 ≤ maxTried + 1) && admissible toxCertainty effCertainty p.2)
  (pickBest cands).map (fun p => p.1 + 1)

/-- Rendering of a recommendation as in the DTP notebook: the sentinel
"no dose" is shown as `Dose -1`. -/
def renderDose : Option Nat → Int
  | none => -1
  | some d => d

/-- Modelled from the spec: dose selection together with the superiority
metric. When a dose is recommended, its superiority (the least pairwise
posterior probability that its utility beats each alternative, supplied here
by `superiorityAt`) is attached; when no dose is admissible the result is the
sentinel pair `(none, none)` — "no dose" with undefined (NaN) superiority —
returned as an ordinary value. -/
def selectWithSuperiority (toxCertainty effCertainty : ℚ) (maxTried : Nat)
    (infos : List DoseInfo) (superiorityAt : Nat → ℚ) : Option Nat × Option ℚ :=
  match select toxCertainty effCertainty maxTried infos with
  | none => (none, none)
  | some d => (some d, some (superiorityAt d))

/-- Modelled from the spec: the DTP enumeration for one upcoming cohort of
size `k`. Every canonical outcome label is retained and paired with the
decision the re-run pipeline produces at that leaf (`decideLeaf`), including
leaves where no dose is admissible. -/
def dtps {α : Type} (k : Nat) (decideLeaf : List Outcome → α) : List (List Outcome × α) :=
  (dtp_labels k).map (fun lab => (lab, decideLeaf lab))

/-- One rendered line of DTP output: the displayed dose, the superiority
value (`none` renders as NaN), and whether the advisory "tentative"
annotation is attached. -/
structure DtpLine where
  dose : Int
  superiority : Option ℚ
  tentative : Bool
deriving DecidableEq

/-- Modelled from the spec: `print_dtps` line rendering. A recommendation
whose superiority is strictly below 0.6 is annotated as tentative; an
undefined (NaN) superiority is never annotated (in the source `nan < 0.6` is
false). The annotation is advisory and leaves the displayed dose unchanged. -/
def print_dtp_line (rec : Option Nat × Option ℚ) : DtpLine :=
  match rec.2 with
  | none => ⟨renderDose rec.1, none, false⟩
  | some s => ⟨renderDose rec.1, some s, decide (s < 0.6)⟩

/-! ## Certified rational bounds on the exponential -/

theorem sum_range_ten_eq_expP (x : ℝ) :
    ∑ m ∈ Finset.range 10, x ^ m / m.factorial = expP x := by
  simp [Finset.sum_range_succ, Nat.factorial, expP]

theorem exp_taylor10_le (x : ℝ) (h1 : -1 ≤ x) (h2 : x ≤ 1) :
    Real.exp x ≤ expP x + x ^ 10 * (11 / 36288000) := by
  have hx : |x| ≤ 1 := abs_le.mpr ⟨h1, h2⟩
  have hb := @Real.exp_bound x hx 10 (by norm_num)
  rw [sum_range_ten_eq_expP] at hb
  have habs : |x| ^ 10 = x ^ 10 := by
    rw [← abs_pow]
    exact abs_of_nonneg (by positivity)
  rw [habs] at hb
  have hc : ((Nat.succ 10 : ℕ) : ℝ) / ((Nat.factorial 10 : ℕ) * (10 : ℕ)) =
      11 / 36288000 := by
    norm_num [Nat.factorial]
  rw [hc] at hb
  linarith [(abs_le.mp hb).2]

theorem exp_taylor10_ge (x : ℝ) (h1 : -1 ≤ x) (h2 : x ≤ 1) :
    expP x - x ^ 10 * (11 / 36288000) ≤ Real.exp x := by
  have hx : |x| ≤ 1 := abs_le.mpr ⟨h1, h2⟩
  have hb := @Real.exp_bound x hx 10 (by norm_num)
  rw [sum_range_ten_eq_expP] at hb
  have habs : |x| ^ 10 = x ^ 10 := by
    rw [← abs_pow]
    exact abs_of_nonneg (by positivity)
  rw [habs] at hb
  have hc : ((Nat.succ 10 : ℕ) : ℝ) / ((Nat.factorial 10 : ℕ) * (10 : ℕ)) =
      11 / 36288000 := by
    norm_num [Nat.factorial]
  rw [hc] at hb
  linarith [(abs_le.mp hb).1]

theorem exp_eq_quarter_pow (r : ℝ) : Real.exp r = (Real.exp (r / 4)) ^ 4 := by
  rw [← Real.exp_nat_mul]
  congr 1
  push_cast
  ring

theorem exp_upper_quarter (r u v : ℝ) (h1 : -1 ≤ r / 4) (h2 : r / 4 ≤ 1)
    (h3 : expP (r / 4) + (r / 4) ^ 10 * (11 / 36288000) ≤ u) (h4 : u ^ 4 ≤ v) :
    Real.exp r ≤ v := by
  have hq : Real.exp (r / 4) ≤ u := (exp_taylor10_le _ h1 h2).trans h3
  have h0 : (0 : ℝ) ≤ Real.exp (r / 4) := (Real.exp_pos _).le
  have hpow := pow_le_pow_left₀ h0 hq 4
  rw [exp_eq_quarter_pow r]
  linarith

theorem exp_lower_quarter (r l v : ℝ) (h1 : -1 ≤ r / 4) (h2 : r / 4 ≤ 1) (h0 : 0 ≤ l)
    (h3 : l ≤ expP (r / 4) - (r / 4) ^ 10 * (11 / 36288000)) (h4 : v ≤ l ^ 4) :
    v ≤ Real.exp r := by
  have hq : l ≤ Real.exp (r / 4) := h3.trans (exp_taylor10_ge _ h1 h2)
  have hpow := pow_le_pow_left₀ h0 hq 4
  rw [exp_eq_quarter_pow r]
  linarith

theorem log_three_gt : (1.098612288 : ℝ) < Real.log 3 := by
  rw [Real.lt_log_iff_exp_lt (by norm_num : (0 : ℝ) < 3)]
  have h := exp_upper_quarter 1.098612288 1.31607401273273 2.999999997997
    (by norm_num) (by norm_num) (by norm_num [expP]) (by norm_num)
  linarith

theorem log_three_lt : Real.log 3 < 1.09861229 := by
  rw [Real.log_lt_iff_lt_exp (by norm_num : (0 : ℝ) < 3)]
  have h := exp_lower_quarter 1.09861229 1.31607401338927 3.000000003982
    (by norm_num) (by norm_num) (by norm_num) (by norm_num [expP]) (by norm_num)
  linarith

theorem inverse_logit_between (t t1 t2 L U : ℝ)
    (ht1 : t1 ≤ t) (ht2 : t ≤ t2)
    (hU : Real.exp (-t1) ≤ U) (hL : L ≤ Real.exp (-t2)) (hL0 : 0 ≤ L) :
    1 / (1 + U) ≤ inverse_logit t ∧ inverse_logit t ≤ 1 / (1 + L) := by
  have e1 : Real.exp (-t) ≤ U := le_trans (Real.exp_le_exp.mpr (by linarith)) hU
  have e2 : L ≤ Real.exp (-t) := le_trans hL (Real.exp_le_exp.mpr (by linarith))
  have hpos : (0 : ℝ) < 1 + Real.exp (-t) := by positivity
  have hposL : (0 : ℝ) < 1 + L := by linarith
  constructor
  · rw [inverse_logit]
    exact one_div_le_one_div_of_le hpos (by linarith)
  · rw [inverse_logit]
    exact one_div_le_one_div_of_le hposL (by linarith)

/-! ## Combinatorics of the canonical DTP enumeration -/

theorem cwr_length {α : Type} (l : List α) :
    ∀ k : Nat, (cwr l k).length = Nat.multichoose l.length k := by
  induction l with
  | nil =>
    intro k
    cases k with
    | zero => simp [cwr, Nat.multichoose_zero_right]
    | succ k => simp [cwr, Nat.multichoose_zero_succ]
  | cons a as ih =>
    intro k
    induction k with
    | zero => simp [cwr, cwrCons, Nat.multichoose_zero_right]
    | succ k ihk =>
      show (cwrCons a (cwr as) (k + 1)).length = _
      show (((cwrCons a (cwr as) k).map (fun s => a :: s)) ++ cwr as (k + 1)).length = _
      rw [List.length_append, List.length_map]
      have h1 : (cwrCons a (cwr as) k) = cwr (a :: as) k := rfl
      rw [h1, ihk, ih (k + 1), List.length_cons, Nat.multichoose_succ_succ]
      omega

theorem cwr_mem {α : Type} (l : List α) :
    ∀ (k : Nat) (s : List α), s ∈ cwr l k → s.length = k ∧ ∀ x ∈ s, x ∈ l := by
  induction l with
  | nil =>
    intro k s hs
    cases k with
    | zero =>
      simp only [cwr, List.mem_singleton] at hs
      subst hs
      simp
    | succ k => simp [cwr] at hs
  | cons a as ih =>
    intro k
    induction k with
    | zero =>
      intro s hs
      simp only [cwr, cwrCons, List.mem_singleton] at hs
      subst hs
      simp
    | succ k ihk =>
      intro s hs
      have hs' : s ∈ ((cwr (a :: as) k).map (fun s => a :: s)) ++ cwr as (k + 1) := hs
      rcases List.mem_append.mp hs' with h | h
      · obtain ⟨t, ht, rfl⟩ := List.mem_map.mp h
        obtain ⟨hlen, hmem⟩ := ihk t ht
        refine ⟨by simp [hlen], ?_⟩
        intro x hx
        rcases List.mem_cons.mp hx with rfl | hx
        · exact List.mem_cons_self _ _
        · exact hmem x hx
      · obtain ⟨hlen, hmem⟩ := ih (k + 1) s h
        exact ⟨hlen, fun x hx => List.mem_cons_of_mem a (hmem x hx)⟩

theorem cwr_sorted {α : Type} {r : α → α → Prop} (hrefl : ∀ a, r a a) (l : List α) :
    ∀ (k : Nat) (s : List α), l.Sorted r → s ∈ cwr l k → s.Sorted r := by
  induction l with
  | nil =>
    intro k s _ hs
    cases k with
    | zero =>
      simp only [cwr, List.mem_singleton] at hs
      subst hs
      simp
    | succ k => simp [cwr] at hs
  | cons a as ih =>
    intro k
    induction k with
    | zero =>
      intro s _ hs
      simp only [cwr, cwrCons, List.mem_singleton] at hs
      subst hs
      simp
    | succ k ihk =>
      intro s hl hs
      have hs' : s ∈ ((cwr (a :: as) k).map (fun s => a :: s)) ++ cwr as (k + 1) := hs
      rcases List.mem_append.mp hs' with h | h
      · obtain ⟨t, ht, rfl⟩ := List.mem_map.mp h
        have hts := ihk t hl ht
        rw [List.sorted_cons]
        refine ⟨?_, hts⟩
        intro b hb
        have hbl : b ∈ a :: as := (cwr_mem (a :: as) k t ht).2 b hb
        rcases List.mem_cons.mp hbl with rfl | hbas
        · exact hrefl b
        · exact (List.sorted_cons.mp hl).1 b hbas
      · exact ih (k + 1) s (List.sorted_cons.mp hl).2 h

/-- C2: for every cohort size `k`, the DTP enumerator produces exactly
`C(k+3, 3)` leaves (not `4^k` ordered sequences), and every leaf's outcome
label is a non-decreasing string of length `k` over the four-symbol alphabet
`{N, E, T, B}`. -/
theorem dtp_canonical_enumeration (k : Nat) :
    (dtp_labels k).length = Nat.choose (k + 3) 3 ∧
    ∀ s ∈ dtp_labels k, s.length = k ∧ List.Sorted (· ≤ ·) s := by
  constructor
  · rw [dtp_labels, cwr_length, Nat.multichoose_eq]
    have h1 : [Outcome.N, Outcome.E, Outcome.T, Outcome.B].length + k - 1 = k + 3 := by
      simp only [List.length_cons, List.length_nil]
      omega
    rw [h1]
    have h2 := Nat.choose_symm (show 3 ≤ k + 3 by omega)
    have h3 : k + 3 - 3 = k := by omega
    rw [h3] at h2
    exact h2
  · intro s hs
    refine ⟨(cwr_mem _ _ _ hs).1, ?_⟩
    exact cwr_sorted (fun a : Outcome => Nat.le_refl a.idx) _ k s (by decide) hs

/-- Witness for C2 at cohort size 3: there are `C(6,3) = 20` leaves and the
leaf `NNT` is a sorted label of length 3. -/
theorem dtp_canonical_enumeration_witness :
    (dtp_labels 3).length = Nat.choose (3 + 3) 3 ∧
    ([Outcome.N, Outcome.N, Outcome.T].length = 3 ∧
      List.Sorted (· ≤ ·) [Outcome.N, Outcome.N, Outcome.T]) :=
  ⟨(dtp_canonical_enumeration 3).1,
    (dtp_canonical_enumeration 3).2 [Outcome.N, Outcome.N, Outcome.T] (by decide)⟩

/-! ## The joint-probability model -/

/-- C3: at association parameter `psi = 0` the joint outcome probability
`_pi_ab` is the product of the `_pi_T` and `_pi_E` marginals for each of the
four (toxicity, efficacy) outcome combinations, and the four joint
probabilities sum to 1. -/
theorem pi_ab_independence_at_zero_psi (x a0 a1 b0 b1 b2 : ℝ) :
    _pi_ab x true true a0 a1 b0 b1 b2 0 = _pi_T x a0 a1 * _pi_E x b0 b1 b2 ∧
    _pi_ab x true false a0 a1 b0 b1 b2 0 = _pi_T x a0 a1 * (1 - _pi_E x b0 b1 b2) ∧
    _pi_ab x false true a0 a1 b0 b1 b2 0 = (1 - _pi_T x a0 a1) * _pi_E x b0 b1 b2 ∧
    _pi_ab x false false a0 a1 b0 b1 b2 0 =
      (1 - _pi_T x a0 a1) * (1 - _pi_E x b0 b1 b2) ∧
    _pi_ab x true true a0 a1 b0 b1 b2 0 + _pi_ab x true false a0 a1 b0 b1 b2 0 +
      _pi_ab x false true a0 a1 b0 b1 b2 0 + _pi_ab x false false a0 a1 b0 b1 b2 0 = 1 := by
  refine ⟨?_, ?_, ?_, ?_, ?_⟩ <;>
    simp only [_pi_ab, Real.exp_zero, if_true, if_false, Bool.true_eq_false,
      Bool.false_eq_true, reduceIte] <;>
    ring

/-- C4: the compound likelihood `_L_n` is invariant under every permutation of
the recorded cohort outcomes, for every parameter draw. -/
theorem L_n_permutation_invariant (c1 c2 : List (ℝ × Bool × Bool)) (hperm : c1.Perm c2)
    (a0 a1 b0 b1 b2 psi : ℝ) :
    _L_n c1 a0 a1 b0 b1 b2 psi = _L_n c2 a0 a1 b0 b1 b2 psi :=
  List.Perm.prod_eq (hperm.map _)

/-- Witness for C4: swapping the two cases of a concrete cohort leaves the
compound likelihood unchanged. -/
theorem L_n_permutation_invariant_witness :
    _L_n [(0, true, false), (1, false, true)] 0 1 0 1 0 0 =
      _L_n [(1, false, true), (0, true, false)] 0 1 0 1 0 0 :=
  L_n_permutation_invariant _ _ (List.Perm.swap (1, false, true) (0, true, false) []) 0 1 0 1 0 0

/-- C9: in DTP output a recommendation with superiority strictly below 0.6 is
annotated as tentative, one with superiority 0.6 or greater is not, and the
annotation never changes the displayed dose. -/
theorem print_dtps_tentative_flag (d : Option Nat) (s : ℚ) :
    (print_dtp_line (d, some s)).dose = renderDose d ∧
    ((print_dtp_line (d, some s)).tentative = true ↔ s < 0.6) := by
  constructor
  · rfl
  · simp [print_dtp_line]

/-! ## The dose selector -/

theorem pickBest_mem (l : List (Nat × DoseInfo)) (p : Nat × DoseInfo)
    (h : pickBest l = some p) : p ∈ l := by
  induction l with
  | nil => simp [pickBest] at h
  | cons q rest ih =>
    rcases hrest : pickBest rest with _ | r
    · rw [pickBest, hrest] at h
      simp only [Option.some.injEq] at h
      subst h
      exact List.mem_cons_self _ _
    · rw [pickBest, hrest] at h
      have h' : (if r.2.meanUtility < q.2.meanUtility then some q else some r) = some p := h
      by_cases hc : r.2.meanUtility < q.2.meanUtility
      · rw [if_pos hc] at h'
        simp only [Option.some.injEq] at h'
        subst h'
        exact List.mem_cons_self _ _
      · rw [if_neg hc] at h'
        simp only [Option.some.injEq] at h'
        subst h'
        exact List.mem_cons_of_mem _ (ih hrest)

/-- C6: the dose selector never recommends a dose whose 1-based index exceeds
the highest already-tried dose index plus one (the no-skip rule). -/
theorem select_no_skip (toxCertainty effCertainty : ℚ) (maxTried : Nat)
    (infos : List DoseInfo) (d : Nat)
    (h : select toxCertainty effCertainty maxTried infos = some d) :
    d ≤ maxTried + 1 := by
  unfold select at h
  obtain ⟨p, hp, hd⟩ := Option.map_eq_some'.mp h
  have hmem := pickBest_mem _ _ hp
  have hpred := (List.mem_filter.mp hmem).2
  simp only [Bool.and_eq_true, decide_eq_true_eq] at hpred
  omega

/-- Witness for C6: with one registered admissible dose and highest tried
dose 1, the selector recommends dose 1, which satisfies the no-skip bound. -/
theorem select_no_skip_witness :
    select 1 1 1 [⟨0, 0, 1⟩] = some 1 ∧ 1 ≤ 1 + 1 :=
  ⟨by decide, select_no_skip 1 1 1 [⟨0, 0, 1⟩] 1 (by decide)⟩

theorem enumFrom_snd_mem {α : Type} : ∀ (n : Nat) (l : List α) (p : Nat × α),
    p ∈ l.enumFrom n → p.2 ∈ l := by
  intro n l
  induction l generalizing n with
  | nil => intro p hp; simp [List.enumFrom] at hp
  | cons a as ih =>
    intro p hp
    rw [List.enumFrom] at hp
    rcases List.mem_cons.mp hp with rfl | hp
    · exact List.mem_cons_self _ _
    · exact List.mem_cons_of_mem _ (ih (n + 1) p hp)

/-- C7: when no dose is admissible, dose selection returns the sentinel pair
`(none, none)` — "no dose" (rendered as `Dose -1`) with undefined (NaN,
modelled as `none`) superiority — as an ordinary return value (the selector is
a total function, so no exception is possible), and the DTP enumeration
retains every canonical leaf, pairing it with whatever decision the pipeline
produced there, rather than discarding inadmissible leaves. -/
theorem no_dose_sentinel (toxCertainty effCertainty : ℚ) (maxTried : Nat)
    (infos : List DoseInfo) (superiorityAt : Nat → ℚ)
    (h : ∀ info ∈ infos, admissible toxCertainty effCertainty info = false) :
    selectWithSuperiority toxCertainty effCertainty maxTried infos superiorityAt =
      (none, none) ∧
    renderDose (selectWithSuperiority toxCertainty effCertainty maxTried infos
      superiorityAt).1 = -1 ∧
    ∀ (k : Nat) (decideLeaf : List Outcome → Option Nat × Option ℚ),
      (dtps k decideLeaf).length = (dtp_labels k).length ∧
      ∀ lab ∈ dtp_labels k, (lab, decideLeaf lab) ∈ dtps k decideLeaf := by
  have hsel : select toxCertainty effCertainty maxTried infos = none := by
    unfold select
    have hnil : infos.enum.filter (fun p =>
        decide (p.1 + 1 ≤ maxTried + 1) &&
          admissible toxCertainty effCertainty p.2) = [] := by
      rw [List.filter_eq_nil_iff]
      intro p hp
      have hsnd : p.2 ∈ infos := enumFrom_snd_mem 0 infos p hp
      simp only [Bool.and_eq_true, decide_eq_true_eq, not_and]
      intro _
      rw [h p.2 hsnd]
      simp
    rw [hnil]
    rfl
  refine ⟨?_, ?_, ?_⟩
  · rw [selectWithSuperiority, hsel]
  · rw [selectWithSuperiority, hsel]
    rfl
  · intro k decideLeaf
    refine ⟨List.length_map _ _, ?_⟩
    intro lab hlab
    exact List.mem_map_of_mem _ hlab

/-- Witness for C7: one registered dose that is inadmissible for toxicity
produces the `(none, none)` sentinel. -/
theorem no_dose_sentinel_witness :
    selectWithSuperiority 0 0 1 [⟨1, 1, 0⟩] (fun _ => 0) = (none, none) :=
  (no_dose_sentinel 0 0 1 [⟨1, 1, 0⟩] (fun _ => 0) (by decide)).1

/-! ## The utility contour -/

/-- C8: the Lp-norm utility derived from the three configured hinge points
`(eff1, 0)`, `(1, tox2)`, `(me, mt)` (the third fixing the exponent `p`
through the contour equation) evaluates to 0 at each hinge point, and is
strictly positive at every valid probability point that is more efficacious
and less toxic than one of the hinge points. -/
theorem lp_utility_hinge_properties (p eff1 tox2 me mt : ℝ)
    (hp : 0 < p) (he1 : eff1 < 1) (ht2 : 0 < tox2)
    (hmid : ((1 - me) / (1 - eff1)) ^ p + (mt / tox2) ^ p = 1) :
    lp_utility p eff1 tox2 eff1 0 = 0 ∧
    lp_utility p eff1 tox2 1 tox2 = 0 ∧
    lp_utility p eff1 tox2 me mt = 0 ∧
    ∀ e t he ht : ℝ,
      ((he = eff1 ∧ ht = 0) ∨ (he = 1 ∧ ht = tox2) ∨ (he = me ∧ ht = mt)) →
      he < e → e ≤ 1 → 0 ≤ t → t < ht →
      0 < lp_utility p eff1 tox2 e t := by
  have heff1 : (1 : ℝ) - eff1 > 0 := by linarith
  refine ⟨?_, ?_, ?_, ?_⟩
  · rw [lp_utility, div_self (ne_of_gt heff1), zero_div, Real.one_rpow,
      Real.zero_rpow (ne_of_gt hp), add_zero, Real.one_rpow, sub_self]
  · rw [lp_utility, sub_self, zero_div, div_self (ne_of_gt ht2),
      Real.zero_rpow (ne_of_gt hp), Real.one_rpow, zero_add, Real.one_rpow, sub_self]
  · rw [lp_utility, hmid, Real.one_rpow, sub_self]
  · rintro e t he ht (⟨rfl, rfl⟩ | ⟨rfl, rfl⟩ | ⟨rfl, rfl⟩) hee he1' ht0 htt
    · linarith
    · linarith
    · have hb1 : (0 : ℝ) ≤ (1 - e) / (1 - eff1) := by
        apply div_nonneg <;> linarith
      have hb2 : (0 : ℝ) ≤ t / tox2 := div_nonneg ht0 (le_of_lt ht2)
      have hlt1 : (1 - e) / (1 - eff1) < (1 - he) / (1 - eff1) :=
        (div_lt_div_iff_of_pos_right heff1).mpr (by linarith)
      have hlt2 : t / tox2 < ht / tox2 := (div_lt_div_iff_of_pos_right ht2).mpr htt
      have hr1 : ((1 - e) / (1 - eff1)) ^ p < ((1 - he) / (1 - eff1)) ^ p :=
        Real.rpow_lt_rpow hb1 hlt1 hp
      have hr2 : (t / tox2) ^ p < (ht / tox2) ^ p := Real.rpow_lt_rpow hb2 hlt2 hp
      have hsum : ((1 - e) / (1 - eff1)) ^ p + (t / tox2) ^ p < 1 := by
        linarith [hmid, hr1, hr2]
      have hsum0 : 0 ≤ ((1 - e) / (1 - eff1)) ^ p + (t / tox2) ^ p :=
        add_nonneg (Real.rpow_nonneg hb1 p) (Real.rpow_nonneg hb2 p)
      have hfin : (((1 - e) / (1 - eff1)) ^ p + (t / tox2) ^ p) ^ (1 / p) < 1 :=
        Real.rpow_lt_one hsum0 hsum (by positivity)
      rw [lp_utility]
      linarith

/-- Witness for C8: hinge points `(0.4, 0)`, `(1, 0.7)`, `(0.7, 0.35)` with
exponent `p = 1` satisfy the contour equation, and the first hinge point has
utility 0. -/
theorem lp_utility_hinge_properties_witness :
    lp_utility 1 0.4 0.7 0.4 0 = 0 :=
  (lp_utility_hinge_properties 1 0.4 0.7 0.7 0.35 (by norm_num) (by norm_num) (by norm_num)
    (by rw [Real.rpow_one, Real.rpow_one]; norm_num)).1

/-! ## The link-function pair from clintrials.common -/

/-- C10: `logistic` and `inverse_logistic` are mutual inverses — composing
them either way is the identity, on `(0, 1)` for the probability side and on
all of `ℝ` for the linear-predictor side, for every intercept `a0` and slope
parameter `beta`. -/
theorem logistic_inverse_logistic_mutual_inverses :
    (∀ a0 beta x : ℝ, 0 < x → x < 1 →
      logistic (inverse_logistic x a0 beta) a0 beta = x) ∧
    (∀ a0 beta y : ℝ, inverse_logistic (logistic y a0 beta) a0 beta = y) := by
  constructor
  · intro a0 beta x hx0 hx1
    have hq : 0 < x / (1 - x) := div_pos hx0 (by linarith)
    have hb := Real.exp_ne_zero beta
    rw [logistic, inverse_logistic]
    have harg : -a0 - Real.exp beta * ((Real.log (x / (1 - x)) - a0) / Real.exp beta)
        = -Real.log (x / (1 - x)) := by
      field_simp
      ring
    rw [harg, Real.exp_neg, Real.exp_log hq, inv_div]
    have hx' : x ≠ 0 := ne_of_gt hx0
    have h1x : (1 : ℝ) - x ≠ 0 := by intro hc; rw [sub_eq_zero] at hc; linarith
    field_simp
  · intro a0 beta y
    have hE := Real.exp_pos (-a0 - Real.exp beta * y)
    have hb := Real.exp_ne_zero beta
    have h1 : (1 : ℝ) + Real.exp (-a0 - Real.exp beta * y) ≠ 0 := by positivity
    rw [inverse_logistic, logistic]
    have harg : 1 / (1 + Real.exp (-a0 - Real.exp beta * y)) /
        (1 - 1 / (1 + Real.exp (-a0 - Real.exp beta * y)))
        = (Real.exp (-a0 - Real.exp beta * y))⁻¹ := by
      field_simp
    rw [harg]
    have hneg : -a0 - Real.exp beta * y = -(a0 + Real.exp beta * y) := by ring
    rw [hneg, Real.exp_neg, inv_inv, Real.log_exp]
    field_simp

/-- Witness for C10: at `x = 1/2`, `a0 = 0`, `beta = 0`, the round trip
through `inverse_logistic` and `logistic` returns `1/2`. -/
theorem logistic_inverse_logistic_mutual_inverses_witness :
    logistic (inverse_logistic (1 / 2) 0 0) 0 0 = 1 / 2 :=
  logistic_inverse_logistic_mutual_inverses.1 0 0 (1 / 2) (by norm_num) (by norm_num)

/-! ## Concrete exponential bounds for the notebook values -/

theorem expU_1 : Real.exp (0.2746530725 : ℝ) ≤ 1.316074013391 :=
  exp_upper_quarter 0.2746530725 1.07107548316208 1.316074013391 (by norm_num) (by norm_num)
    (by norm_num [expP]) (by norm_num)

theorem expL_1 : (1.316074012732 : ℝ) ≤ Real.exp (0.274653072) :=
  exp_lower_quarter 0.274653072 1.07107548302818 1.316074012732 (by norm_num) (by norm_num)
    (by norm_num) (by norm_num [expP]) (by norm_num)

theorem expU_2 : Real.exp (-1.137326536 : ℝ) ≤ 0.320675190416 :=
  exp_upper_quarter (-1.137326536) 0.75251704308335 0.320675190416 (by norm_num) (by norm_num)
    (by norm_num [expP]) (by norm_num)

theorem expL_2 : (0.320675190332 : ℝ) ≤ Real.exp (-1.13732653625) :=
  exp_lower_quarter (-1.13732653625) 0.75251704303421 0.320675190332 (by norm_num) (by norm_num)
    (by norm_num) (by norm_num [expP]) (by norm_num)

theorem expU_3 : Real.exp (-0.474653072 : ℝ) ≤ 0.622100843233 :=
  exp_upper_quarter (-0.474653072) 0.88810680439754 0.622100843233 (by norm_num) (by norm_num)
    (by norm_num [expP]) (by norm_num)

theorem expL_3 : (0.622100842921 : ℝ) ≤ Real.exp (-0.4746530725) :=
  exp_lower_quarter (-0.4746530725) 0.88810680428652 0.622100842921 (by norm_num) (by norm_num)
    (by norm_num) (by norm_num [expP]) (by norm_num)

theorem expU_4 : Real.exp (-0.823959216 : ℝ) ≤ 0.438691337871 :=
  exp_upper_quarter (-0.823959216) 0.81384137416728 0.438691337871 (by norm_num) (by norm_num)
    (by norm_num [expP]) (by norm_num)

theorem expL_4 : (0.438691337212 : ℝ) ≤ Real.exp (-0.8239592175) :=
  exp_lower_quarter (-0.8239592175) 0.81384137386199 0.438691337212 (by norm_num) (by norm_num)
    (by norm_num) (by norm_num [expP]) (by norm_num)

theorem expU_5 : Real.exp (-0.58802039125 : ℝ) ≤ 0.555425722758 :=
  exp_upper_quarter (-0.58802039125) 0.86328957651671 0.555425722758 (by norm_num) (by norm_num)
    (by norm_num [expP]) (by norm_num)

theorem expL_5 : (0.555425722341 : ℝ) ≤ Real.exp (-0.588020392) :=
  exp_lower_quarter (-0.588020392) 0.86328957635483 0.555425722341 (by norm_num) (by norm_num)
    (by norm_num) (by norm_num [expP]) (by norm_num)

theorem expU_6 : Real.exp (0.6239592175 : ℝ) ≤ 1.866302531252 :=
  exp_upper_quarter 0.6239592175 1.16881428623697 1.866302531252 (by norm_num) (by norm_num)
    (by norm_num [expP]) (by norm_num)

theorem expL_6 : (1.866302528451 : ℝ) ≤ Real.exp (0.623959216) :=
  exp_lower_quarter 0.623959216 1.16881428579865 1.866302528451 (by norm_num) (by norm_num)
    (by norm_num) (by norm_num [expP]) (by norm_num)

theorem expU_7 : Real.exp (-0.561463985135 : ℝ) ≤ 0.570373434095 :=
  exp_upper_quarter (-0.561463985135) 0.869040111735 0.570373434095 (by norm_num) (by norm_num)
    (by norm_num [expP]) (by norm_num)

theorem expL_7 : (0.570373433413 : ℝ) ≤ Real.exp (-0.561463986329) :=
  exp_lower_quarter (-0.561463986329) 0.86904011147558 0.570373433413 (by norm_num) (by norm_num)
    (by norm_num) (by norm_num [expP]) (by norm_num)

theorem expU_8 : Real.exp (-1.12292797027 : ℝ) ≤ 0.325325854321 :=
  exp_upper_quarter (-1.12292797027) 0.75523071580448 0.325325854321 (by norm_num) (by norm_num)
    (by norm_num [expP]) (by norm_num)

theorem expL_8 : (0.32532585354 : ℝ) ≤ Real.exp (-1.122927972658) :=
  exp_lower_quarter (-1.122927972658) 0.75523071535175 0.32532585354 (by norm_num) (by norm_num)
    (by norm_num) (by norm_num [expP]) (by norm_num)

theorem expU_9 : Real.exp (0.861463986329 : ℝ) ≤ 2.366622862321 :=
  exp_upper_quarter 0.861463986329 1.24031576523487 2.366622862321 (by norm_num) (by norm_num)
    (by norm_num [expP]) (by norm_num)

theorem expL_9 : (2.366622859493 : ℝ) ≤ Real.exp (0.861463985135) :=
  exp_lower_quarter 0.861463985135 1.2403157648645 2.366622859493 (by norm_num) (by norm_num)
    (by norm_num) (by norm_num [expP]) (by norm_num)

theorem expU_10 : Real.exp (0.900980376974 : ℝ) ≤ 2.46201563181 :=
  exp_upper_quarter 0.900980376974 1.25262969089795 2.46201563181 (by norm_num) (by norm_num)
    (by norm_num [expP]) (by norm_num)

theorem expL_10 : (2.462015629136 : ℝ) ≤ Real.exp (0.900980375889) :=
  exp_lower_quarter 0.900980375889 1.25262969055796 2.462015629136 (by norm_num) (by norm_num)
    (by norm_num) (by norm_num [expP]) (by norm_num)

theorem expU_11 : Real.exp (1.801960753948 : ℝ) ≤ 6.061520971356 :=
  exp_upper_quarter 1.801960753948 1.56908114252452 6.061520971356 (by norm_num) (by norm_num)
    (by norm_num [expP]) (by norm_num)

theorem expL_11 : (6.061520954983 : ℝ) ≤ Real.exp (1.801960751779) :=
  exp_lower_quarter 1.801960751779 1.56908114146498 6.061520954983 (by norm_num) (by norm_num)
    (by norm_num) (by norm_num [expP]) (by norm_num)

theorem expU_12 : Real.exp (-0.600980375889 : ℝ) ≤ 0.548273858054 :=
  exp_upper_quarter (-0.600980375889) 0.86049704793788 0.548273858054 (by norm_num) (by norm_num)
    (by norm_num [expP]) (by norm_num)

theorem expL_12 : (0.548273857458 : ℝ) ≤ Real.exp (-0.600980376974) :=
  exp_lower_quarter (-0.600980376974) 0.86049704770446 0.548273857458 (by norm_num) (by norm_num)
    (by norm_num) (by norm_num [expP]) (by norm_num)

/-! ## The recorded notebook values for the marginal probabilities -/

theorem nbv_1 : |_pi_T (-(Real.log 3) / 4) 0 1 - 0.43176513| < 1 / 1000000 := by
  have h2a := Real.log_two_gt_d9
  have h2b := Real.log_two_lt_d9
  have h3a := log_three_gt
  have h3b := log_three_lt
  rw [_pi_T]
  have hb := inverse_logit_between (0 + 1 * (-(Real.log 3) / 4))
    (-0.2746530725) (-0.274653072) 1.316074012732 1.316074013391
    (by linarith) (by linarith) (by rw [neg_neg]; exact expU_1) (by rw [neg_neg]; exact expL_1) (by norm_num)
  have c1 : (0.43176513 : ℝ) - 1 / 1000000 < 1 / (1 + (1.316074013391 : ℝ)) := by norm_num
  have c2 : (1 : ℝ) / (1 + (1.316074012732 : ℝ)) < 0.43176513 + 1 / 1000000 := by norm_num
  rw [abs_lt]
  exact ⟨by linarith [hb.1, c1], by linarith [hb.2, c2]⟩

theorem nbv_2 : |_pi_T (-(Real.log 3) / 4) 1 (-0.5) - 0.75718845| < 1 / 1000000 := by
  have h2a := Real.log_two_gt_d9
  have h2b := Real.log_two_lt_d9
  have h3a := log_three_gt
  have h3b := log_three_lt
  rw [_pi_T]
  have hb := inverse_logit_between (1 + (-0.5) * (-(Real.log 3) / 4))
    1.137326536 1.13732653625 0.320675190332 0.320675190416
    (by linarith) (by linarith) expU_2 expL_2 (by norm_num)
  have c1 : (0.75718845 : ℝ) - 1 / 1000000 < 1 / (1 + (0.320675190416 : ℝ)) := by norm_num
  have c2 : (1 : ℝ) / (1 + (0.320675190332 : ℝ)) < 0.75718845 + 1 / 1000000 := by norm_num
  rw [abs_lt]
  exact ⟨by linarith [hb.1, c1], by linarith [hb.2, c2]⟩

theorem nbv_3 : |_pi_T (-(Real.log 3) / 4) 0.2 (-1) - 0.61648448| < 1 / 1000000 := by
  have h2a := Real.log_two_gt_d9
  have h2b := Real.log_two_lt_d9
  have h3a := log_three_gt
  have h3b := log_three_lt
  rw [_pi_T]
  have hb := inverse_logit_between (0.2 + (-1) * (-(Real.log 3) / 4))
    0.474653072 0.4746530725 0.622100842921 0.622100843233
    (by linarith) (by linarith) expU_3 expL_3 (by norm_num)
  have c1 : (0.61648448 : ℝ) - 1 / 1000000 < 1 / (1 + (0.622100843233 : ℝ)) := by norm_num
  have c2 : (1 : ℝ) / (1 + (0.622100842921 : ℝ)) < 0.61648448 + 1 / 1000000 := by norm_num
  rw [abs_lt]
  exact ⟨by linarith [hb.1, c1], by linarith [hb.2, c2]⟩

theorem nbv_4 : |_pi_T (3 / 4 * Real.log 3) 0 1 - 0.69507612| < 1 / 1000000 := by
  have h2a := Real.log_two_gt_d9
  have h2b := Real.log_two_lt_d9
  have h3a := log_three_gt
  have h3b := log_three_lt
  rw [_pi_T]
  have hb := inverse_logit_between (0 + 1 * (3 / 4 * Real.log 3))
    0.823959216 0.8239592175 0.438691337212 0.438691337871
    (by linarith) (by linarith) expU_4 expL_4 (by norm_num)
  have c1 : (0.69507612 : ℝ) - 1 / 1000000 < 1 / (1 + (0.438691337871 : ℝ)) := by norm_num
  have c2 : (1 : ℝ) / (1 + (0.438691337212 : ℝ)) < 0.69507612 + 1 / 1000000 := by norm_num
  rw [abs_lt]
  exact ⟨by linarith [hb.1, c1], by linarith [hb.2, c2]⟩

theorem nbv_5 : |_pi_T (3 / 4 * Real.log 3) 1 (-0.5) - 0.6429108| < 1 / 1000000 := by
  have h2a := Real.log_two_gt_d9
  have h2b := Real.log_two_lt_d9
  have h3a := log_three_gt
  have h3b := log_three_lt
  rw [_pi_T]
  have hb := inverse_logit_between (1 + (-0.5) * (3 / 4 * Real.log 3))
    0.58802039125 0.588020392 0.555425722341 0.555425722758
    (by linarith) (by linarith) expU_5 expL_5 (by norm_num)
  have c1 : (0.6429108 : ℝ) - 1 / 1000000 < 1 / (1 + (0.555425722758 : ℝ)) := by norm_num
  have c2 : (1 : ℝ) / (1 + (0.555425722341 : ℝ)) < 0.6429108 + 1 / 1000000 := by norm_num
  rw [abs_lt]
  exact ⟨by linarith [hb.1, c1], by linarith [hb.2, c2]⟩

theorem nbv_6 : |_pi_T (3 / 4 * Real.log 3) 0.2 (-1) - 0.34888153| < 1 / 1000000 := by
  have h2a := Real.log_two_gt_d9
  have h2b := Real.log_two_lt_d9
  have h3a := log_three_gt
  have h3b := log_three_lt
  rw [_pi_T]
  have hb := inverse_logit_between (0.2 + (-1) * (3 / 4 * Real.log 3))
    (-0.6239592175) (-0.623959216) 1.866302528451 1.866302531252
    (by linarith) (by linarith) (by rw [neg_neg]; exact expU_6) (by rw [neg_neg]; exact expL_6) (by norm_num)
  have c1 : (0.34888153 : ℝ) - 1 / 1000000 < 1 / (1 + (1.866302531252 : ℝ)) := by norm_num
  have c2 : (1 : ℝ) / (1 + (1.866302528451 : ℝ)) < 0.34888153 + 1 / 1000000 := by norm_num
  rw [abs_lt]
  exact ⟨by linarith [hb.1, c1], by linarith [hb.2, c2]⟩

theorem nbv_7 : |_pi_E (-(Real.log 2) - Real.log 3 / 4) (-0.5) (-1) 0.1 - 0.63679121| < 1 / 1000000 := by
  have h2a := Real.log_two_gt_d9
  have h2b := Real.log_two_lt_d9
  have h3a := log_three_gt
  have h3b := log_three_lt
  rw [_pi_E]
  have hx1 : (-0.9678002533 : ℝ) ≤ (-(Real.log 2) - Real.log 3 / 4) := by linarith
  have hx2 : (-(Real.log 2) - Real.log 3 / 4) ≤ (-0.9678002523 : ℝ) := by linarith
  have hs1 : (0.936637328351 : ℝ) ≤ (-(Real.log 2) - Real.log 3 / 4) ^ 2 := by
    nlinarith [mul_self_nonneg ((-(Real.log 2) - Real.log 3 / 4) + 0.9678002523), hx2]
  have hs2 : (-(Real.log 2) - Real.log 3 / 4) ^ 2 ≤ (0.936637330288 : ℝ) := by
    nlinarith [mul_nonneg (by linarith : (0 : ℝ) ≤ (-(Real.log 2) - Real.log 3 / 4) + 0.9678002533)
      (by linarith : (0 : ℝ) ≤ 0.9678002533 - (-(Real.log 2) - Real.log 3 / 4))]
  have hb := inverse_logit_between ((-0.5) + (-1) * (-(Real.log 2) - Real.log 3 / 4) + 0.1 * (-(Real.log 2) - Real.log 3 / 4) ^ 2)
    0.561463985135 0.561463986329 0.570373433413 0.570373434095
    (by linarith) (by linarith) expU_7 expL_7 (by norm_num)
  have c1 : (0.63679121 : ℝ) - 1 / 1000000 < 1 / (1 + (0.570373434095 : ℝ)) := by norm_num
  have c2 : (1 : ℝ) / (1 + (0.570373433413 : ℝ)) < 0.63679121 + 1 / 1000000 := by norm_num
  rw [abs_lt]
  exact ⟨by linarith [hb.1, c1], by linarith [hb.2, c2]⟩

theorem nbv_8 : |_pi_E (-(Real.log 2) - Real.log 3 / 4) (-1) (-2) 0.2 - 0.75453142| < 1 / 1000000 := by
  have h2a := Real.log_two_gt_d9
  have h2b := Real.log_two_lt_d9
  have h3a := log_three_gt
  have h3b := log_three_lt
  rw [_pi_E]
  have hx1 : (-0.9678002533 : ℝ) ≤ (-(Real.log 2) - Real.log 3 / 4) := by linarith
  have hx2 : (-(Real.log 2) - Real.log 3 / 4) ≤ (-0.9678002523 : ℝ) := by linarith
  have hs1 : (0.936637328351 : ℝ) ≤ (-(Real.log 2) - Real.log 3 / 4) ^ 2 := by
    nlinarith [mul_self_nonneg ((-(Real.log 2) - Real.log 3 / 4) + 0.9678002523), hx2]
  have hs2 : (-(Real.log 2) - Real.log 3 / 4) ^ 2 ≤ (0.936637330288 : ℝ) := by
    nlinarith [mul_nonneg (by linarith : (0 : ℝ) ≤ (-(Real.log 2) - Real.log 3 / 4) + 0.9678002533)
      (by linarith : (0 : ℝ) ≤ 0.9678002533 - (-(Real.log 2) - Real.log 3 / 4))]
  have hb := inverse_logit_between ((-1) + (-2) * (-(Real.log 2) - Real.log 3 / 4) + 0.2 * (-(Real.log 2) - Real.log 3 / 4) ^ 2)
    1.12292797027 1.122927972658 0.32532585354 0.325325854321
    (by linarith) (by linarith) expU_8 expL_8 (by norm_num)
  have c1 : (0.75453142 : ℝ) - 1 / 1000000 < 1 / (1 + (0.325325854321 : ℝ)) := by norm_num
  have c2 : (1 : ℝ) / (1 + (0.32532585354 : ℝ)) < 0.75453142 + 1 / 1000000 := by norm_num
  rw [abs_lt]
  exact ⟨by linarith [hb.1, c1], by linarith [hb.2, c2]⟩

theorem nbv_9 : |_pi_E (-(Real.log 2) - Real.log 3 / 4) 0.2 1 (-0.1) - 0.29703357| < 1 / 1000000 := by
  have h2a := Real.log_two_gt_d9
  have h2b := Real.log_two_lt_d9
  have h3a := log_three_gt
  have h3b := log_three_lt
  rw [_pi_E]
  have hx1 : (-0.9678002533 : ℝ) ≤ (-(Real.log 2) - Real.log 3 / 4) := by linarith
  have hx2 : (-(Real.log 2) - Real.log 3 / 4) ≤ (-0.9678002523 : ℝ) := by linarith
  have hs1 : (0.936637328351 : ℝ) ≤ (-(Real.log 2) - Real.log 3 / 4) ^ 2 := by
    nlinarith [mul_self_nonneg ((-(Real.log 2) - Real.log 3 / 4) + 0.9678002523), hx2]
  have hs2 : (-(Real.log 2) - Real.log 3 / 4) ^ 2 ≤ (0.936637330288 : ℝ) := by
    nlinarith [mul_nonneg (by linarith : (0 : ℝ) ≤ (-(Real.log 2) - Real.log 3 / 4) + 0.9678002533)
      (by linarith : (0 : ℝ) ≤ 0.9678002533 - (-(Real.log 2) - Real.log 3 / 4))]
  have hb := inverse_logit_between (0.2 + 1 * (-(Real.log 2) - Real.log 3 / 4) + (-0.1) * (-(Real.log 2) - Real.log 3 / 4) ^ 2)
    (-0.861463986329) (-0.861463985135) 2.366622859493 2.366622862321
    (by linarith) (by linarith) (by rw [neg_neg]; exact expU_9) (by rw [neg_neg]; exact expL_9) (by norm_num)
  have c1 : (0.29703357 : ℝ) - 1 / 1000000 < 1 / (1 + (2.366622862321 : ℝ)) := by norm_num
  have c2 : (1 : ℝ) / (1 + (2.366622859493 : ℝ)) < 0.29703357 + 1 / 1000000 := by norm_num
  rw [abs_lt]
  exact ⟨by linarith [hb.1, c1], by linarith [hb.2, c2]⟩

theorem nbv_10 : |_pi_E (Real.log 2 - Real.log 3 / 4) (-0.5) (-1) 0.1 - 0.28884907| < 1 / 1000000 := by
  have h2a := Real.log_two_gt_d9
  have h2b := Real.log_two_lt_d9
  have h3a := log_three_gt
  have h3b := log_three_lt
  rw [_pi_E]
  have hx1 : (0.4184941078 : ℝ) ≤ (Real.log 2 - Real.log 3 / 4) := by linarith
  have hx2 : (Real.log 2 - Real.log 3 / 4) ≤ (0.4184941088 : ℝ) := by linarith
  have hs1 : (0.175137318263 : ℝ) ≤ (Real.log 2 - Real.log 3 / 4) ^ 2 := by
    nlinarith [mul_nonneg (by linarith : (0 : ℝ) ≤ (Real.log 2 - Real.log 3 / 4) - 0.4184941078)
      (by linarith : (0 : ℝ) ≤ (Real.log 2 - Real.log 3 / 4) + 0.4184941078)]
  have hs2 : (Real.log 2 - Real.log 3 / 4) ^ 2 ≤ (0.175137319101 : ℝ) := by
    nlinarith [mul_nonneg (by linarith : (0 : ℝ) ≤ 0.4184941088 - (Real.log 2 - Real.log 3 / 4))
      (by linarith : (0 : ℝ) ≤ 0.4184941088 + (Real.log 2 - Real.log 3 / 4))]
  have hb := inverse_logit_between ((-0.5) + (-1) * (Real.log 2 - Real.log 3 / 4) + 0.1 * (Real.log 2 - Real.log 3 / 4) ^ 2)
    (-0.900980376974) (-0.900980375889) 2.462015629136 2.46201563181
    (by linarith) (by linarith) (by rw [neg_neg]; exact expU_10) (by rw [neg_neg]; exact expL_10) (by norm_num)
  have c1 : (0.28884907 : ℝ) - 1 / 1000000 < 1 / (1 + (2.46201563181 : ℝ)) := by norm_num
  have c2 : (1 : ℝ) / (1 + (2.462015629136 : ℝ)) < 0.28884907 + 1 / 1000000 := by norm_num
  rw [abs_lt]
  exact ⟨by linarith [hb.1, c1], by linarith [hb.2, c2]⟩

theorem nbv_11 : |_pi_E (Real.log 2 - Real.log 3 / 4) (-1) (-2) 0.2 - 0.14161255| < 1 / 1000000 := by
  have h2a := Real.log_two_gt_d9
  have h2b := Real.log_two_lt_d9
  have h3a := log_three_gt
  have h3b := log_three_lt
  rw [_pi_E]
  have hx1 : (0.4184941078 : ℝ) ≤ (Real.log 2 - Real.log 3 / 4) := by linarith
  have hx2 : (Real.log 2 - Real.log 3 / 4) ≤ (0.4184941088 : ℝ) := by linarith
  have hs1 : (0.175137318263 : ℝ) ≤ (Real.log 2 - Real.log 3 / 4) ^ 2 := by
    nlinarith [mul_nonneg (by linarith : (0 : ℝ) ≤ (Real.log 2 - Real.log 3 / 4) - 0.4184941078)
      (by linarith : (0 : ℝ) ≤ (Real.log 2 - Real.log 3 / 4) + 0.4184941078)]
  have hs2 : (Real.log 2 - Real.log 3 / 4) ^ 2 ≤ (0.175137319101 : ℝ) := by
    nlinarith [mul_nonneg (by linarith : (0 : ℝ) ≤ 0.4184941088 - (Real.log 2 - Real.log 3 / 4))
      (by linarith : (0 : ℝ) ≤ 0.4184941088 + (Real.log 2 - Real.log 3 / 4))]
  have hb := inverse_logit_between ((-1) + (-2) * (Real.log 2 - Real.log 3 / 4) + 0.2 * (Real.log 2 - Real.log 3 / 4) ^ 2)
    (-1.801960753948) (-1.801960751779) 6.061520954983 6.061520971356
    (by linarith) (by linarith) (by rw [neg_neg]; exact expU_11) (by rw [neg_neg]; exact expL_11) (by norm_num)
  have c1 : (0.14161255 : ℝ) - 1 / 1000000 < 1 / (1 + (6.061520971356 : ℝ)) := by norm_num
  have c2 : (1 : ℝ) / (1 + (6.061520954983 : ℝ)) < 0.14161255 + 1 / 1000000 := by norm_num
  rw [abs_lt]
  exact ⟨by linarith [hb.1, c1], by linarith [hb.2, c2]⟩

theorem nbv_12 : |_pi_E (Real.log 2 - Real.log 3 / 4) 0.2 1 (-0.1) - 0.64588057| < 1 / 1000000 := by
  have h2a := Real.log_two_gt_d9
  have h2b := Real.log_two_lt_d9
  have h3a := log_three_gt
  have h3b := log_three_lt
  rw [_pi_E]
  have hx1 : (0.4184941078 : ℝ) ≤ (Real.log 2 - Real.log 3 / 4) := by linarith
  have hx2 : (Real.log 2 - Real.log 3 / 4) ≤ (0.4184941088 : ℝ) := by linarith
  have hs1 : (0.175137318263 : ℝ) ≤ (Real.log 2 - Real.log 3 / 4) ^ 2 := by
    nlinarith [mul_nonneg (by linarith : (0 : ℝ) ≤ (Real.log 2 - Real.log 3 / 4) - 0.4184941078)
      (by linarith : (0 : ℝ) ≤ (Real.log 2 - Real.log 3 / 4) + 0.4184941078)]
  have hs2 : (Real.log 2 - Real.log 3 / 4) ^ 2 ≤ (0.175137319101 : ℝ) := by
    nlinarith [mul_nonneg (by linarith : (0 : ℝ) ≤ 0.4184941088 - (Real.log 2 - Real.log 3 / 4))
      (by linarith : (0 : ℝ) ≤ 0.4184941088 + (Real.log 2 - Real.log 3 / 4))]
  have hb := inverse_logit_between (0.2 + 1 * (Real.log 2 - Real.log 3 / 4) + (-0.1) * (Real.log 2 - Real.log 3 / 4) ^ 2)
    0.600980375889 0.600980376974 0.548273857458 0.548273858054
    (by linarith) (by linarith) expU_12 expL_12 (by norm_num)
  have c1 : (0.64588057 : ℝ) - 1 / 1000000 < 1 / (1 + (0.548273858054 : ℝ)) := by norm_num
  have c2 : (1 : ℝ) / (1 + (0.548273857458 : ℝ)) < 0.64588057 + 1 / 1000000 := by norm_num
  rw [abs_lt]
  exact ⟨by linarith [hb.1, c1], by linarith [hb.2, c2]⟩

/-! ## The Matchpoint scaled doses and the notebook arrays -/

theorem scale_doses_matchpoint :
    scale_doses [7.5, 15, 30, 45] =
      [-(Real.log 2) - Real.log 3 / 4, -(Real.log 3) / 4,
        Real.log 2 - Real.log 3 / 4, 3 / 4 * Real.log 3] := by
  have h75 : Real.log 7.5 = Real.log 15 - Real.log 2 := by
    rw [show (7.5 : ℝ) = 15 / 2 by norm_num]
    rw [Real.log_div (by norm_num) (by norm_num)]
  have h30 : Real.log 30 = Real.log 15 + Real.log 2 := by
    rw [show (30 : ℝ) = 15 * 2 by norm_num]
    rw [Real.log_mul (by norm_num) (by norm_num)]
  have h45 : Real.log 45 = Real.log 15 + Real.log 3 := by
    rw [show (45 : ℝ) = 15 * 3 by norm_num]
    rw [Real.log_mul (by norm_num) (by norm_num)]
  rw [scale_doses]
  simp only [List.map_cons, List.map_nil, List.sum_cons, List.sum_nil, List.length_cons,
    List.length_nil, List.cons.injEq, and_true, h75, h30, h45]
  norm_num
  refine ⟨by ring, by ring, by ring, by ring⟩

theorem nb_sd0 : |(-(Real.log 2) - Real.log 3 / 4) - (-0.96780025)| < 1 / 1000000 := by
  have h2a := Real.log_two_gt_d9
  have h2b := Real.log_two_lt_d9
  have h3a := log_three_gt
  have h3b := log_three_lt
  rw [abs_lt]
  constructor <;> linarith

theorem nb_sd1 : |(-(Real.log 3) / 4) - (-0.27465307)| < 1 / 1000000 := by
  have h3a := log_three_gt
  have h3b := log_three_lt
  rw [abs_lt]
  constructor <;> linarith

theorem nb_sd2 : |(Real.log 2 - Real.log 3 / 4) - 0.41849411| < 1 / 1000000 := by
  have h2a := Real.log_two_gt_d9
  have h2b := Real.log_two_lt_d9
  have h3a := log_three_gt
  have h3b := log_three_lt
  rw [abs_lt]
  constructor <;> linarith

theorem nb_sd3 : |(3 / 4 * Real.log 3) - 0.82395922| < 1 / 1000000 := by
  have h3a := log_three_gt
  have h3b := log_three_lt
  rw [abs_lt]
  constructor <;> linarith

/-- C5: for every scaled dose and parameter draw, `_pi_T` is the inverse logit
of `alpha0 + alpha1 * x` and `_pi_E` is the inverse logit of
`beta0 + beta1 * x + beta2 * x^2`; moreover, at the Matchpoint scaled doses
these definitions reproduce, to within 10⁻⁶, the numeric values recorded in
the nuts-and-bolts notebook: the scaled-dose array itself and the `_pi_T` and
`_pi_E` arrays over the three notional parameter draws. -/
theorem pi_T_pi_E_formulas_and_notebook_values :
    (∀ x a0 a1 : ℝ, _pi_T x a0 a1 = inverse_logit (a0 + a1 * x)) ∧
    (∀ x b0 b1 b2 : ℝ, _pi_E x b0 b1 b2 = inverse_logit (b0 + b1 * x + b2 * x ^ 2)) ∧
    (|(scale_doses [7.5, 15, 30, 45])[0]! - (-0.96780025)| < 1 / 1000000 ∧
     |(scale_doses [7.5, 15, 30, 45])[1]! - (-0.27465307)| < 1 / 1000000 ∧
     |(scale_doses [7.5, 15, 30, 45])[2]! - 0.41849411| < 1 / 1000000 ∧
     |(scale_doses [7.5, 15, 30, 45])[3]! - 0.82395922| < 1 / 1000000) ∧
    (|_pi_T (scale_doses [7.5, 15, 30, 45])[1]! 0 1 - 0.43176513| < 1 / 1000000 ∧
     |_pi_T (scale_doses [7.5, 15, 30, 45])[1]! 1 (-0.5) - 0.75718845| < 1 / 1000000 ∧
     |_pi_T (scale_doses [7.5, 15, 30, 45])[1]! 0.2 (-1) - 0.61648448| < 1 / 1000000 ∧
     |_pi_T (scale_doses [7.5, 15, 30, 45])[3]! 0 1 - 0.69507612| < 1 / 1000000 ∧
     |_pi_T (scale_doses [7.5, 15, 30, 45])[3]! 1 (-0.5) - 0.6429108| < 1 / 1000000 ∧
     |_pi_T (scale_doses [7.5, 15, 30, 45])[3]! 0.2 (-1) - 0.34888153| < 1 / 1000000) ∧
    (|_pi_E (scale_doses [7.5, 15, 30, 45])[0]! (-0.5) (-1) 0.1 - 0.63679121| < 1 / 1000000 ∧
     |_pi_E (scale_doses [7.5, 15, 30, 45])[0]! (-1) (-2) 0.2 - 0.75453142| < 1 / 1000000 ∧
     |_pi_E (scale_doses [7.5, 15, 30, 45])[0]! 0.2 1 (-0.1) - 0.29703357| < 1 / 1000000 ∧
     |_pi_E (scale_doses [7.5, 15, 30, 45])[2]! (-0.5) (-1) 0.1 - 0.28884907| < 1 / 1000000 ∧
     |_pi_E (scale_doses [7.5, 15, 30, 45])[2]! (-1) (-2) 0.2 - 0.14161255| < 1 / 1000000 ∧
     |_pi_E (scale_doses [7.5, 15, 30, 45])[2]! 0.2 1 (-0.1) - 0.64588057| < 1 / 1000000) := by
  have hsd := scale_doses_matchpoint
  have e0 : (scale_doses [7.5, 15, 30, 45])[0]! = -(Real.log 2) - Real.log 3 / 4 := by
    rw [hsd]
    rfl
  have e1 : (scale_doses [7.5, 15, 30, 45])[1]! = -(Real.log 3) / 4 := by
    rw [hsd]
    rfl
  have e2 : (scale_doses [7.5, 15, 30, 45])[2]! = Real.log 2 - Real.log 3 / 4 := by
    rw [hsd]
    rfl
  have e3 : (scale_doses [7.5, 15, 30, 45])[3]! = 3 / 4 * Real.log 3 := by
    rw [hsd]
    rfl
  refine ⟨fun x a0 a1 => rfl, fun x b0 b1 b2 => rfl, ⟨?_, ?_, ?_, ?_⟩,
    ⟨?_, ?_, ?_, ?_, ?_, ?_⟩, ⟨?_, ?_, ?_, ?_, ?_, ?_⟩⟩
  · rw [e0]; exact nb_sd0
  · rw [e1]; exact nb_sd1
  · rw [e2]; exact nb_sd2
  · rw [e3]; exact nb_sd3
  · rw [e1]; exact nbv_1
  · rw [e1]; exact nbv_2
  · rw [e1]; exact nbv_3
  · rw [e3]; exact nbv_4
  · rw [e3]; exact nbv_5
  · rw [e3]; exact nbv_6
  · rw [e0]; exact nbv_7
  · rw [e0]; exact nbv_8
  · rw [e0]; exact nbv_9
  · rw [e2]; exact nbv_10
  · rw [e2]; exact nbv_11
  · rw [e2]; exact nbv_12


end Clintrials
